import Mathlib

/-!
# Verification of the 3D cross-section explorer's cut-plane core

Shallow embedding of the repository's cut-plane interaction pipeline
(`src/App.tsx`: the `App` component, the `SlicerScene` component and the
shared `types` module).  Floating-point numbers are modelled as real
numbers; the three.js vector/quaternion/plane/ray helpers that the code
calls are embedded by their library definitions.

Layout:
* vector and quaternion arithmetic (the three.js operations the code uses);
* the plane derivation performed every frame by `SlicerScene`'s `useFrame`;
* the ray/plane intersection used by the pointer-follow update;
* the discrete state machine of the application (React state, refs and
  effects), as a step function over user/frame events;
* theorems settling the frozen claims.
-/

noncomputable section

open Real

/-- A three.js `Vector3`, with real components standing in for floats. -/
@[ext]
structure Vec3 where
  x : ℝ
  y : ℝ
  z : ℝ
  deriving DecidableEq

namespace Vec3

instance : Add Vec3 := ⟨fun a b => ⟨a.x + b.x, a.y + b.y, a.z + b.z⟩⟩
instance : Sub Vec3 := ⟨fun a b => ⟨a.x - b.x, a.y - b.y, a.z - b.z⟩⟩
instance : SMul ℝ Vec3 := ⟨fun c v => ⟨c * v.x, c * v.y, c * v.z⟩⟩

@[simp] lemma add_x (a b : Vec3) : (a + b).x = a.x + b.x := rfl
@[simp] lemma add_y (a b : Vec3) : (a + b).y = a.y + b.y := rfl
@[simp] lemma add_z (a b : Vec3) : (a + b).z = a.z + b.z := rfl
@[simp] lemma sub_x (a b : Vec3) : (a - b).x = a.x - b.x := rfl
@[simp] lemma sub_y (a b : Vec3) : (a - b).y = a.y - b.y := rfl
@[simp] lemma sub_z (a b : Vec3) : (a - b).z = a.z - b.z := rfl
@[simp] lemma smul_x (c : ℝ) (v : Vec3) : (c • v).x = c * v.x := rfl
@[simp] lemma smul_y (c : ℝ) (v : Vec3) : (c • v).y = c * v.y := rfl
@[simp] lemma smul_z (c : ℝ) (v : Vec3) : (c • v).z = c * v.z := rfl

end Vec3

/-- The zero vector, `new THREE.Vector3()` / `new THREE.Vector3(0, 0, 0)`. -/
def vzero : Vec3 := ⟨0, 0, 0⟩

/-- three.js `Vector3.dot`. -/
def dot3 (a b : Vec3) : ℝ := a.x * b.x + a.y * b.y + a.z * b.z

/-- Squared Euclidean length, three.js `Vector3.lengthSq`. -/
def normSq (v : Vec3) : ℝ := v.x ^ 2 + v.y ^ 2 + v.z ^ 2

/-- Euclidean length, three.js `Vector3.length`. -/
def vnorm (v : Vec3) : ℝ := Real.sqrt (normSq v)

/-- three.js `Vector3.normalize`: `divideScalar(this.length() || 1)`;
the JS `|| 1` guard replaces a zero length by `1`. -/
def vnormalize (v : Vec3) : Vec3 :=
  (1 / (if vnorm v = 0 then 1 else vnorm v)) • v

/-- three.js `Vector3.clampLength(min, max)`:
`divideScalar(length || 1).multiplyScalar(max(min, min(max, length)))`. -/
def clampLength (v : Vec3) (minL maxL : ℝ) : Vec3 :=
  (max minL (min maxL (vnorm v)) / (if vnorm v = 0 then 1 else vnorm v)) • v

/-- three.js `Vector3.lerp(target, alpha)`:
componentwise `this.x += (v.x - this.x) * alpha`. -/
def lerpV (a target : Vec3) (alpha : ℝ) : Vec3 := a + alpha • (target - a)

/-- three.js `Vector3.lerpVectors(v1, v2, alpha)`:
componentwise `v1.x + (v2.x - v1.x) * alpha`. -/
def lerpVectors (v1 v2 : Vec3) (alpha : ℝ) : Vec3 := v1 + alpha • (v2 - v1)

/-- A three.js `Quaternion`. -/
structure Quat where
  x : ℝ
  y : ℝ
  z : ℝ
  w : ℝ

/-- three.js `Quaternion.setFromEuler` for the default rotation order
`'XYZ'` (the order of `new THREE.Euler(0, 0, 0)` used by the scene):
with `c1 = cos(ex/2), s1 = sin(ex/2)` etc. -/
def quatFromEulerXYZ (e : Vec3) : Quat :=
  let c1 := Real.cos (e.x / 2)
  let c2 := Real.cos (e.y / 2)
  let c3 := Real.cos (e.z / 2)
  let s1 := Real.sin (e.x / 2)
  let s2 := Real.sin (e.y / 2)
  let s3 := Real.sin (e.z / 2)
  ⟨s1 * c2 * c3 + c1 * s2 * s3,
   c1 * s2 * c3 - s1 * c2 * s3,
   c1 * c2 * s3 + s1 * s2 * c3,
   c1 * c2 * c3 - s1 * s2 * s3⟩

/-- Squared quaternion norm. -/
def qnormSq (q : Quat) : ℝ := q.x ^ 2 + q.y ^ 2 + q.z ^ 2 + q.w ^ 2

/-- three.js `Vector3.applyQuaternion(q)`:
`t = 2 * cross(q.xyz, v); v + q.w * t + cross(q.xyz, t)`. -/
def applyQuaternion (v : Vec3) (q : Quat) : Vec3 :=
  let tx := 2 * (q.y * v.z - q.z * v.y)
  let ty := 2 * (q.z * v.x - q.x * v.z)
  let tz := 2 * (q.x * v.y - q.y * v.x)
  ⟨v.x + q.w * tx + q.y * tz - q.z * ty,
   v.y + q.w * ty + q.z * tx - q.x * tz,
   v.z + q.w * tz + q.x * ty - q.y * tx⟩

/-- A three.js `Plane` (`normal · p + constant = 0`). -/
structure PlaneT where
  normal : Vec3
  constant : ℝ
  deriving DecidableEq

/-- The per-frame plane derivation in `SlicerScene`'s `useFrame`:
`quat = new Quaternion().setFromEuler(rot)`,
`normal = new Vector3(0, 1, 0).applyQuaternion(quat).normalize()`,
`constant = -normal.dot(pos)`. -/
def derivePlane (pos rot : Vec3) : PlaneT :=
  let quat := quatFromEulerXYZ rot
  let normal := vnormalize (applyQuaternion ⟨0, 1, 0⟩ quat)
  { normal := normal, constant := -(dot3 normal pos) }

/-!  ### Basic norm lemmas -/

lemma normSq_nonneg (v : Vec3) : 0 ≤ normSq v := by
  unfold normSq; positivity

lemma vnorm_nonneg (v : Vec3) : 0 ≤ vnorm v := Real.sqrt_nonneg _

lemma vnorm_smul (c : ℝ) (v : Vec3) : vnorm (c • v) = |c| * vnorm v := by
  unfold vnorm normSq
  have h : (c • v).x ^ 2 + (c • v).y ^ 2 + (c • v).z ^ 2
      = c ^ 2 * (v.x ^ 2 + v.y ^ 2 + v.z ^ 2) := by
    simp; ring
  rw [h, Real.sqrt_mul (sq_nonneg c), Real.sqrt_sq_eq_abs]

@[simp] lemma vnorm_vzero : vnorm vzero = 0 := by
  unfold vnorm normSq vzero
  norm_num

lemma vnorm_sq (v : Vec3) : vnorm v ^ 2 = normSq v :=
  Real.sq_sqrt (normSq_nonneg v)

lemma dot3_le_vnorm_mul (v w : Vec3) : dot3 v w ≤ vnorm v * vnorm w := by
  have hcs : dot3 v w ^ 2 ≤ normSq v * normSq w := by
    unfold dot3 normSq
    nlinarith [sq_nonneg (v.x * w.y - v.y * w.x), sq_nonneg (v.x * w.z - v.z * w.x),
      sq_nonneg (v.y * w.z - v.z * w.y)]
  calc dot3 v w ≤ |dot3 v w| := le_abs_self _
    _ = Real.sqrt (dot3 v w ^ 2) := (Real.sqrt_sq_eq_abs _).symm
    _ ≤ Real.sqrt (normSq v * normSq w) := Real.sqrt_le_sqrt hcs
    _ = vnorm v * vnorm w := by
        rw [Real.sqrt_mul (normSq_nonneg v)]; rfl

lemma vnorm_add_le (v w : Vec3) : vnorm (v + w) ≤ vnorm v + vnorm w := by
  have hexp : normSq (v + w) = normSq v + 2 * dot3 v w + normSq w := by
    unfold normSq dot3; simp; ring
  have hdot := dot3_le_vnorm_mul v w
  have hle : normSq (v + w) ≤ (vnorm v + vnorm w) ^ 2 := by
    have hv := vnorm_sq v
    have hw := vnorm_sq w
    nlinarith
  calc vnorm (v + w) = Real.sqrt (normSq (v + w)) := rfl
    _ ≤ Real.sqrt ((vnorm v + vnorm w) ^ 2) := Real.sqrt_le_sqrt hle
    _ = vnorm v + vnorm w :=
        Real.sqrt_sq (add_nonneg (vnorm_nonneg v) (vnorm_nonneg w))

/-!  ### Unit length of the derived normal -/

/-- The quaternion built from any Euler angles is a unit quaternion. -/
lemma qnormSq_quatFromEulerXYZ (e : Vec3) : qnormSq (quatFromEulerXYZ e) = 1 := by
  unfold qnormSq quatFromEulerXYZ
  have key : ∀ c1 c2 c3 s1 s2 s3 : ℝ,
      (s1 * c2 * c3 + c1 * s2 * s3) ^ 2 + (c1 * s2 * c3 - s1 * c2 * s3) ^ 2
        + (c1 * c2 * s3 + s1 * s2 * c3) ^ 2 + (c1 * c2 * c3 - s1 * s2 * s3) ^ 2
      = (s1 ^ 2 + c1 ^ 2) * (s2 ^ 2 + c2 ^ 2) * (s3 ^ 2 + c3 ^ 2) := by
    intro c1 c2 c3 s1 s2 s3; ring
  simp only
  rw [key, Real.sin_sq_add_cos_sq, Real.sin_sq_add_cos_sq, Real.sin_sq_add_cos_sq]
  norm_num

/-- Rotating the base normal `(0, 1, 0)` by a unit quaternion yields a
vector of squared length `1`. -/
lemma normSq_applyQuaternion_baseNormal (q : Quat) (hq : qnormSq q = 1) :
    normSq (applyQuaternion ⟨0, 1, 0⟩ q) = 1 := by
  have key : normSq (applyQuaternion ⟨0, 1, 0⟩ q)
      = 1 + 4 * (q.x ^ 2 + q.z ^ 2) * (qnormSq q - 1) := by
    unfold normSq applyQuaternion qnormSq
    simp only
    ring
  rw [key, hq]; ring

/-- The derived plane normal has Euclidean length exactly `1`. -/
lemma vnorm_derivePlane_normal (pos rot : Vec3) :
    vnorm (derivePlane pos rot).normal = 1 := by
  have h1 : normSq (applyQuaternion ⟨0, 1, 0⟩ (quatFromEulerXYZ rot)) = 1 :=
    normSq_applyQuaternion_baseNormal _ (qnormSq_quatFromEulerXYZ rot)
  have hv : vnorm (applyQuaternion ⟨0, 1, 0⟩ (quatFromEulerXYZ rot)) = 1 := by
    unfold vnorm; rw [h1, Real.sqrt_one]
  show vnorm (vnormalize (applyQuaternion ⟨0, 1, 0⟩ (quatFromEulerXYZ rot))) = 1
  unfold vnormalize
  rw [hv]
  norm_num
  rw [vnorm_smul, hv]
  norm_num

/-!  ### Ray / plane intersection (three.js `Ray`, pointer follow) -/

/-- A three.js `Ray` (`origin + t * direction`). -/
structure Ray3 where
  origin : Vec3
  dir : Vec3

/-- three.js `Plane.distanceToPoint(point)`: `normal.dot(point) + constant`. -/
def distanceToPoint (p : PlaneT) (pt : Vec3) : ℝ := dot3 p.normal pt + p.constant

/-- three.js `Ray.distanceToPlane(plane)`: returns `none` (JS `null`) when
the ray is parallel to the plane and not contained in it, or when the
intersection parameter is negative (plane behind the ray). -/
def distanceToPlane (r : Ray3) (p : PlaneT) : Option ℝ :=
  let denom := dot3 p.normal r.dir
  if denom = 0 then
    if distanceToPoint p r.origin = 0 then some 0 else none
  else
    let t := -(dot3 r.origin p.normal + p.constant) / denom
    if 0 ≤ t then some t else none

/-- three.js `Ray.intersectPlane(plane, target)`: writes
`origin + t * direction` into `target` on success and returns `null`
(leaving `target` untouched) on failure. -/
def intersectPlane (r : Ray3) (p : PlaneT) : Option Vec3 :=
  (distanceToPlane r p).map (fun t => r.origin + t • r.dir)

/-- The value left in the pre-allocated `target` vector after
`raycaster.ray.intersectPlane(interactionPlane, target)` in the
`useFrame` body: the intersection point on success, and the vector's
initial value `new THREE.Vector3()` = `(0, 0, 0)` when `intersectPlane`
returns `null` (the target is not written in that case). -/
def followTarget (r : Ray3) (ip : PlaneT) : Vec3 :=
  match intersectPlane r ip with
  | some p => p
  | none => vzero

/-- The position-follow update in `useFrame`.  The source guards the
update with `if (target)`, but `target` is the pre-allocated `Vector3`
object, which is always truthy in JS — so the guard never skips and the
clamp + lerp run every frame, including when `intersectPlane` returned
`null`: `target.clampLength(0, 2.5); planePosRef.current.lerp(target, 0.15)`. -/
def followUpdate (prevPos : Vec3) (r : Ray3) (ip : PlaneT) : Vec3 :=
  lerpV prevPos (clampLength (followTarget r ip) 0 2.5) 0.15

/-!  ### Camera align animation (`triggerAlignView` effect) -/

/-- Fixed standoff distance of the align animation (`const distance = 5`). -/
def alignDistance : ℝ := 5

/-- Fixed align animation duration in milliseconds (`const duration = 1000`). -/
def alignDuration : ℝ := 1000

/-- Target camera position computed at align-trigger time:
`center.clone().add(normal.multiplyScalar(-distance))` with
`center = (0, 0, 0)` and the plane normal captured at trigger time. -/
def alignTarget (normal : Vec3) : Vec3 := vzero + (-alignDistance) • normal

/-- One step of the align animation `animateCam` at wall-clock time `now`:
`t = min((now - startTime) / duration, 1)`, `ease = 1 - (1 - t)^3`,
`camera.position.lerpVectors(startPos, targetPos, ease)`, then
`camera.lookAt(0, 0, 0)`.  Returns the camera position and the look-at
point of that step. -/
def alignStep (startPos targetPos : Vec3) (now startTime : ℝ) : Vec3 × Vec3 :=
  let t := min ((now - startTime) / alignDuration) 1
  let ease := 1 - (1 - t) ^ 3
  (lerpVectors startPos targetPos ease, vzero)

/-!  ### Discrete application model -/

/-- `GeometryType` from `types.ts`. -/
inductive GeometryType
  | cube | sphere | cylinder | cone | torus
  | tetrahedron | octahedron | dodecahedron | icosahedron
  | capsule | hexprism
  deriving DecidableEq

/-- `InteractionMode` (`'camera' | 'knife'`), referenced by `SlicerScene`. -/
inductive InteractionMode
  | camera | knife
  deriving DecidableEq

/-- Descriptor of a generated `THREE.BufferGeometry`, carrying the
constructor and its arguments. -/
inductive BufferGeom
  | box (w h d : ℝ)
  | sphereGeo (radius : ℝ) (widthSegments heightSegments : ℕ)
  | cylinderGeo (radiusTop radiusBottom height : ℝ) (radialSegments : ℕ)
  | coneGeo (radius height : ℝ) (radialSegments : ℕ)
  | torusGeo (radius tube : ℝ) (radialSegments tubularSegments : ℕ)
  | tetrahedronGeo (radius : ℝ)
  | octahedronGeo (radius : ℝ)
  | dodecahedronGeo (radius : ℝ)
  | icosahedronGeo (radius : ℝ)
  | capsuleGeo (radius length : ℝ) (capSegments radialSegments : ℕ)
  deriving DecidableEq

/-- `createGeometry` from `SlicerScene.tsx`.  The TS `switch` has a
`default` branch returning `BoxGeometry(2, 2, 2)`; it is unreachable
here because the Lean enumeration is exhaustive. -/
def createGeometry : GeometryType → BufferGeom
  | .cube => .box 2 2 2
  | .sphere => .sphereGeo 1.4 64 64
  | .cylinder => .cylinderGeo 1 1 3 64
  | .cone => .coneGeo 1.2 3 64
  | .torus => .torusGeo 1.2 0.4 32 100
  | .tetrahedron => .tetrahedronGeo 1.6
  | .octahedron => .octahedronGeo 1.6
  | .dodecahedron => .dodecahedronGeo 1.4
  | .icosahedron => .icosahedronGeo 1.4
  | .capsule => .capsuleGeo 0.8 1.5 4 16
  | .hexprism => .cylinderGeo 1.2 1.2 2.5 6

/-- CSS cursor values the scene assigns to the canvas. -/
inductive Cursor
  | auto | grab | grabbing
  deriving DecidableEq

/-- The pointer-interaction state held by `SlicerScene`'s refs
(`isDraggingRotate`, `lastMouse`), the canvas cursor, and whether the
pointer is currently captured. -/
structure PointerSt where
  isDraggingRotate : Bool
  lastMouse : Option (ℝ × ℝ)
  cursor : Cursor
  captured : Bool
  deriving DecidableEq

/-- The idle pointer state (refs at mount: not dragging, no last
position, default cursor, no capture). -/
def idlePointer : PointerSt := ⟨false, none, .auto, false⟩

/-- `SlicerScene`'s `onPointerDown` handler.  `button = 0` is the primary
and `button = 2` the secondary pointer button.  The handler starts a
rotation drag on a secondary-button press, or a primary-button press in
knife mode, capturing the pointer and setting the `grabbing` cursor.
The `isFrozen` flag is in scope in the enclosing effect closure but the
handler does not read it. -/
def onPointerDown (mode : Option InteractionMode) (isFrozen : Bool)
    (button : ℕ) (cx cy : ℝ) (st : PointerSt) : PointerSt :=
  let isRightClick := button = 2
  let isLeftClick := button = 0
  let isKnifeMode := mode = some .knife
  if isRightClick ∨ (isKnifeMode ∧ isLeftClick) then
    { isDraggingRotate := true, lastMouse := some (cx, cy),
      cursor := .grabbing, captured := true }
  else st

/-- `SlicerScene`'s `onPointerMove` handler, restricted to the data it
touches: returns the updated `lastMouse` ref and the updated Euler
accumulator.  Returns everything unchanged when frozen (`if (isFrozen)
return;`) or when not in a rotation drag. -/
def onPointerMoveUpd (isFrozen : Bool) (cx cy : ℝ) (dragging : Bool)
    (lm : Option (ℝ × ℝ)) (euler : Vec3) : Option (ℝ × ℝ) × Vec3 :=
  if isFrozen then (lm, euler)
  else if dragging then
    match lm with
    | some (lx, ly) =>
        (some (cx, cy),
         ⟨euler.x - (cy - ly) * 0.01, euler.y - (cx - lx) * 0.01, euler.z⟩)
    | none => (lm, euler)
  else (lm, euler)

/-- `SlicerScene`'s `onPointerUp` handler: ends a rotation drag,
releasing capture and restoring the cursor (`grab` in knife mode,
`auto` otherwise). -/
def onPointerUpUpd (mode : Option InteractionMode) (st : PointerSt) : PointerSt :=
  if st.isDraggingRotate then
    { isDraggingRotate := false, lastMouse := none,
      cursor := if mode = some .knife then .grab else .auto, captured := false }
  else st

/-- `SlicerScene`'s `handleKeyDown`: six case-insensitive keys step the
Euler accumulator by `±0.1` radians (`q`/`e` on z, `a`/`d` on y,
`w`/`s` on x); the handler returns immediately when frozen.  The caller
passes the already lower-cased key. -/
def handleKeyDown (k : Char) (e : Vec3) : Vec3 :=
  let e1 := if k = 'q' then ⟨e.x, e.y, e.z + 0.1⟩ else e
  let e2 := if k = 'e' then ⟨e1.x, e1.y, e1.z - 0.1⟩ else e1
  let e3 := if k = 'a' then ⟨e2.x, e2.y + 0.1, e2.z⟩ else e2
  let e4 := if k = 'd' then ⟨e3.x, e3.y - 0.1, e3.z⟩ else e3
  let e5 := if k = 'w' then ⟨e4.x + 0.1, e4.y, e4.z⟩ else e4
  if k = 's' then ⟨e5.x - 0.1, e5.y, e5.z⟩ else e5

/-- `App.handleCanvasClick`: `if (!isFrozen) setIsFrozen(true)`.
Returns the new `isFrozen` value.  The handler receives the React mouse
event but inspects nothing on it — no displacement or duration check. -/
def handleCanvasClick (isFrozen : Bool) : Bool :=
  if !isFrozen then true else isFrozen

/-- Edge-trigger test shared by the `triggerReset` and `triggerAlignView`
effects: a React effect body runs when its dependency changes, and both
bodies return early on the value `0` (`if (trigger === 0) return;`),
so the one-shot action fires exactly when the counter changed to a
nonzero value. -/
def triggerFires (oldVal newVal : ℕ) : Bool :=
  newVal ≠ oldVal ∧ newVal ≠ 0

/-- The whole session state: `App`'s React state (geometry selector,
frozen flag, trigger counters), the `interactionMode` prop received by
`SlicerScene` (the `App` call site does not supply it, so it stays
`none` — JS `undefined` — for the whole session), and `SlicerScene`'s
refs and camera. -/
structure SystemState where
  geometryType : GeometryType
  geometry : BufferGeom
  isFrozen : Bool
  alignTrigger : ℕ
  resetTrigger : ℕ
  interactionMode : Option InteractionMode
  planePos : Vec3
  planeEuler : Vec3
  plane : PlaneT
  pointer : PointerSt
  camPos : Vec3
  camTarget : Vec3
  animActive : Bool
  deriving DecidableEq

/-- The state at mount: cube selected, unfrozen, both triggers `0`,
identity plane pose, plane `(0, 1, 0)·p + 0 = 0`, idle pointer, camera
at the `Canvas` default `position: [4, 4, 6]` looking at the origin. -/
def initSystem : SystemState :=
  { geometryType := .cube
    geometry := createGeometry .cube
    isFrozen := false
    alignTrigger := 0
    resetTrigger := 0
    interactionMode := none
    planePos := vzero
    planeEuler := vzero
    plane := ⟨⟨0, 1, 0⟩, 0⟩
    pointer := idlePointer
    camPos := ⟨4, 4, 6⟩
    camTarget := vzero
    animActive := false }

/-- Body of the `triggerReset` effect (once past its `=== 0` guard):
cancels any in-flight camera animation, zeroes both plane accumulators,
and snaps the camera to the default pose `(4, 4, 6)` targeting the
origin. -/
def resetEffect (s : SystemState) : SystemState :=
  { s with planePos := vzero, planeEuler := vzero,
           camPos := ⟨4, 4, 6⟩, camTarget := vzero, animActive := false }

/-- React effect pass after a state update: the `triggerReset` effect
runs when its counter changed (acting only past the `0` guard), then the
`triggerAlignView` effect likewise (its action starts the camera
animation, modelled by the `animActive` flag; the continuous motion is
`alignStep`). -/
def applyEffects (old new_ : SystemState) : SystemState :=
  let s1 := if triggerFires old.resetTrigger new_.resetTrigger
            then resetEffect new_ else new_
  if triggerFires old.alignTrigger new_.alignTrigger
  then { s1 with animActive := true } else s1

/-- Discrete events driving the session: the UI callbacks of `App`, the
DOM pointer/keyboard events of `SlicerScene`, and the per-frame
`useFrame` callback.  `canvasClick` is the DOM `click` the wrapper div
receives after a primary-button press/release pair; the browser
dispatches it regardless of how far the pointer moved or how long it was
held, so the gesture's displacement (px) and duration (ms) are carried
as data the handler could in principle consult. -/
inductive UiEvent
  | pressReset
  | pressAlign
  | shapeChange (t : GeometryType)
  | toggleFreeze
  | canvasClick (displacementPx durationMs : ℝ)
  | canvasDoubleClick
  | pointerDown (button : ℕ) (cx cy : ℝ)
  | pointerMove (cx cy : ℝ)
  | pointerUp
  | keyDown (k : Char)
  | frame (r : Ray3) (camDir : Vec3)

/-- One step of the session: the event's handler runs, then React
effects observe the trigger counters.  Faithful to the source handlers:
`App.handleReset`, `App`'s `onShapeChange`/`onToggleFreeze`/
`onAlignView` callbacks, `handleCanvasClick`, the wrapper div's
`onDoubleClick`, `SlicerScene`'s pointer/keyboard handlers and its
`useFrame` body. -/
def step (s : SystemState) : UiEvent → SystemState
  | .pressReset =>
      applyEffects s { s with isFrozen := false, alignTrigger := 0,
                              resetTrigger := s.resetTrigger + 1 }
  | .pressAlign =>
      applyEffects s { s with alignTrigger := s.alignTrigger + 1 }
  | .shapeChange t =>
      applyEffects s { s with geometryType := t, geometry := createGeometry t,
                              isFrozen := false,
                              resetTrigger := s.resetTrigger + 1 }
  | .toggleFreeze => { s with isFrozen := !s.isFrozen }
  | .canvasClick _ _ => { s with isFrozen := handleCanvasClick s.isFrozen }
  | .canvasDoubleClick => { s with isFrozen := false }
  | .pointerDown b cx cy =>
      { s with pointer := onPointerDown s.interactionMode s.isFrozen b cx cy s.pointer }
  | .pointerMove cx cy =>
      let r := onPointerMoveUpd s.isFrozen cx cy s.pointer.isDraggingRotate
                 s.pointer.lastMouse s.planeEuler
      { s with pointer := { s.pointer with lastMouse := r.1 }, planeEuler := r.2 }
  | .pointerUp => { s with pointer := onPointerUpUpd s.interactionMode s.pointer }
  | .keyDown k =>
      if s.isFrozen then s
      else { s with planeEuler := handleKeyDown k.toLower s.planeEuler }
  | .frame r camDir =>
      let pos' := if !s.isFrozen ∧ !s.pointer.isDraggingRotate
                  then followUpdate s.planePos r ⟨camDir, 0⟩
                  else s.planePos
      { s with planePos := pos', plane := derivePlane pos' s.planeEuler }

/-- States reachable from mount by any finite sequence of events. -/
inductive Reachable : SystemState → Prop
  | init : Reachable initSystem
  | next : ∀ (s : SystemState) (e : UiEvent), Reachable s → Reachable (step s e)

/-!  ### Claim theorems -/

/-- Claim C1: every frame, for every accumulated state, the derived
plane equation matches the reference definition — the normal is the base
normal `(0, 1, 0)` rotated by the accumulated Euler angles and has unit
length for arbitrary (unbounded) angles, the offset is
`-dot(normal, position)`, and the frame step recomputes the plane from
the accumulators alone, independent of the previously stored plane. -/
theorem C1_plane_equation_invariant :
    ∀ (pos rot : Vec3) (s : SystemState) (r : Ray3) (camDir : Vec3),
      vnorm (derivePlane pos rot).normal = 1
      ∧ (derivePlane pos rot).normal
          = vnormalize (applyQuaternion ⟨0, 1, 0⟩ (quatFromEulerXYZ rot))
      ∧ (derivePlane pos rot).constant
          = -(dot3 (derivePlane pos rot).normal pos)
      ∧ (step s (.frame r camDir)).plane
          = derivePlane (step s (.frame r camDir)).planePos
              (step s (.frame r camDir)).planeEuler := by
  intro pos rot s r camDir
  exact ⟨vnorm_derivePlane_normal pos rot, rfl, rfl, rfl⟩

/-- Claim C3 (code bug witness): on a pick ray parallel to the
pointer-follow plane, `intersectPlane` has no solution, yet the
position-follow update is not skipped — the always-truthy `if (target)`
guard lets the clamp and lerp run on the untouched zero target, moving
the plane position from `(1, 0, 0)` to `(0.85, 0, 0)` instead of
retaining it. -/
theorem C3_parallel_ray_moves_position :
    intersectPlane ⟨⟨0, 0, 5⟩, ⟨1, 0, 0⟩⟩ ⟨⟨0, 0, 1⟩, 0⟩ = none
    ∧ followUpdate ⟨1, 0, 0⟩ ⟨⟨0, 0, 5⟩, ⟨1, 0, 0⟩⟩ ⟨⟨0, 0, 1⟩, 0⟩
        = ⟨0.85, 0, 0⟩
    ∧ (⟨0.85, 0, 0⟩ : Vec3) ≠ (⟨1, 0, 0⟩ : Vec3) := by
  have hnone : intersectPlane ⟨⟨0, 0, 5⟩, ⟨1, 0, 0⟩⟩ ⟨⟨0, 0, 1⟩, 0⟩ = none := by
    unfold intersectPlane distanceToPlane distanceToPoint dot3
    norm_num
  refine ⟨hnone, ?_, ?_⟩
  · unfold followUpdate followTarget
    rw [hnone]
    unfold clampLength lerpV
    rw [vnorm_vzero]
    ext <;> simp [vzero] <;> norm_num
  · intro h
    rw [Vec3.mk.injEq] at h
    norm_num at h

/-- Claim C8: freezing and then unfreezing, with no intervening pointer,
keyboard, or frame event, leaves the plane state (position, orientation,
stored plane, and the derived equation) exactly unchanged — both along
the click / double-click path and along the freeze-button toggle path. -/
theorem C8_freeze_unfreeze_preserves_plane :
    ∀ (s : SystemState) (d t : ℝ),
      (step (step s (.canvasClick d t)) .canvasDoubleClick).planePos = s.planePos
      ∧ (step (step s (.canvasClick d t)) .canvasDoubleClick).planeEuler = s.planeEuler
      ∧ (step (step s (.canvasClick d t)) .canvasDoubleClick).plane = s.plane
      ∧ (step (step s (.canvasClick d t)) .canvasDoubleClick).isFrozen = false
      ∧ derivePlane (step (step s (.canvasClick d t)) .canvasDoubleClick).planePos
          (step (step s (.canvasClick d t)) .canvasDoubleClick).planeEuler
          = derivePlane s.planePos s.planeEuler
      ∧ (step (step s .toggleFreeze) .toggleFreeze).planePos = s.planePos
      ∧ (step (step s .toggleFreeze) .toggleFreeze).planeEuler = s.planeEuler
      ∧ (step (step s .toggleFreeze) .toggleFreeze).plane = s.plane
      ∧ (step (step s .toggleFreeze) .toggleFreeze).isFrozen = s.isFrozen := by
  intro s d t
  refine ⟨rfl, rfl, rfl, rfl, rfl, rfl, rfl, rfl, ?_⟩
  simp [step]

/-- Claim C10: changing the solid-type selector regenerates the mesh for
the new type and, in addition, unfreezes the cut, increments the reset
trigger, zeroes the plane pose, and restores the default camera pose. -/
theorem C10_shape_change_resets :
    ∀ (s : SystemState) (t : GeometryType),
      (step s (.shapeChange t)).geometryType = t
      ∧ (step s (.shapeChange t)).geometry = createGeometry t
      ∧ (step s (.shapeChange t)).isFrozen = false
      ∧ (step s (.shapeChange t)).resetTrigger = s.resetTrigger + 1
      ∧ (step s (.shapeChange t)).planePos = vzero
      ∧ (step s (.shapeChange t)).planeEuler = vzero
      ∧ (step s (.shapeChange t)).camPos = ⟨4, 4, 6⟩
      ∧ (step s (.shapeChange t)).camTarget = vzero
      ∧ (step s (.shapeChange t)).animActive = false := by
  intro s t
  simp [step, applyEffects, triggerFires, resetEffect]

/-- Claim C6: the align target is the origin plus the captured plane
normal scaled by the negative standoff distance `5` (hence, the normal
being unit length, the camera lands at distance `5` from the origin);
the target depends only on the plane orientation, not on the plane
position, so two triggers with the same orientation compute the same
target; and each animation step lerps from the start position with the
cubic ease-out `1 - (1 - t)^3` of the clamped normalized time while
aiming at the origin. -/
theorem C6_align_target_and_animation :
    ∀ (pos pos' rot startPos : Vec3) (now startTime : ℝ),
      alignTarget (derivePlane pos rot).normal
          = vzero + (-5 : ℝ) • (derivePlane pos rot).normal
      ∧ vnorm (alignTarget (derivePlane pos rot).normal) = 5
      ∧ alignTarget (derivePlane pos rot).normal
          = alignTarget (derivePlane pos' rot).normal
      ∧ alignStep startPos (alignTarget (derivePlane pos rot).normal) now startTime
          = (lerpVectors startPos (alignTarget (derivePlane pos rot).normal)
              (1 - (1 - min ((now - startTime) / 1000) 1) ^ 3), vzero) := by
  intro pos pos' rot startPos now startTime
  refine ⟨rfl, ?_, rfl, rfl⟩
  have h1 : alignTarget (derivePlane pos rot).normal
      = (-5 : ℝ) • (derivePlane pos rot).normal := by
    unfold alignTarget alignDistance
    ext <;> simp [vzero]
  rw [h1, vnorm_smul, vnorm_derivePlane_normal]
  norm_num

/-- Claim C2 (counterexample): a pointer gesture whose displacement
(500 px) and duration (2000 ms) are far above any drag threshold still
triggers the freeze transition from the unfrozen initial state — the
click handler performs no drag/click discrimination. -/
theorem C2_drag_gesture_freezes :
    initSystem.isFrozen = false
    ∧ (step initSystem (.canvasClick 500 2000)).isFrozen = true := by
  constructor
  · rfl
  · simp [step, handleCanvasClick, initSystem]

/-- Claim C2 (amended): every click the canvas wrapper receives while
unfrozen sets the frozen flag, independent of the gesture's displacement,
duration, and the interaction mode; a click while frozen leaves the
whole state unchanged.  There is no drag/click classification. -/
theorem C2_any_click_freezes :
    ∀ (s : SystemState) (d t d' t' : ℝ),
      step s (.canvasClick d t) = step s (.canvasClick d' t')
      ∧ (s.isFrozen = false → (step s (.canvasClick d t)).isFrozen = true)
      ∧ (s.isFrozen = true → step s (.canvasClick d t) = s) := by
  intro s d t d' t'
  refine ⟨rfl, ?_, ?_⟩
  · intro h
    simp [step, handleCanvasClick, h]
  · intro h
    cases s
    simp_all [step, handleCanvasClick]

/-- Claim C2 (amended) witness at a concrete state and gesture. -/
theorem C2_any_click_freezes_witness :
    (step initSystem (.canvasClick 120 400)).isFrozen = true :=
  (C2_any_click_freezes initSystem 120 400 0 0).2.1 rfl

/-- Claim C4 (counterexample): `App` never passes the `interactionMode`
prop to `SlicerScene` (the JSX supplies only `geometryType`, `isFrozen`,
the two triggers and `onUpdatePlane`), so the mode is `undefined`
(`none`) throughout; triggering reset does not produce an interaction
mode of `camera`. -/
theorem C4_reset_mode_counterexample :
    (step initSystem .pressReset).interactionMode ≠ some InteractionMode.camera := by
  simp [step, applyEffects, triggerFires, resetEffect, initSystem]

/-- Claim C4 (amended): from every prior state, reset restores the plane
position to `(0, 0, 0)`, the orientation to `(0, 0, 0)`, the frozen flag
to `false`, the align trigger to `0`, and the camera to its fixed
default pose (position `(4, 4, 6)`, target origin), cancelling any
in-flight camera animation; it increments the reset trigger and leaves
the (never supplied) interaction-mode prop unchanged rather than
restoring it to `camera`. -/
theorem C4_reset_restores_defaults :
    ∀ s : SystemState,
      (step s .pressReset).planePos = vzero
      ∧ (step s .pressReset).planeEuler = vzero
      ∧ (step s .pressReset).isFrozen = false
      ∧ (step s .pressReset).camPos = ⟨4, 4, 6⟩
      ∧ (step s .pressReset).camTarget = vzero
      ∧ (step s .pressReset).alignTrigger = 0
      ∧ (step s .pressReset).resetTrigger = s.resetTrigger + 1
      ∧ (step s .pressReset).interactionMode = s.interactionMode
      ∧ (step s .pressReset).animActive = false := by
  intro s
  simp [step, applyEffects, triggerFires, resetEffect]

/-- Claim C5 (counterexample): the align trigger is not monotonically
non-decreasing over a session — pressing align and then reset takes it
from `1` back to `0`, because `App.handleReset` executes
`setAlignTrigger(0)`. -/
theorem C5_align_counter_decreases :
    (step (step initSystem .pressAlign) .pressReset).alignTrigger
      < (step initSystem .pressAlign).alignTrigger := by
  simp [step, applyEffects, triggerFires, resetEffect, initSystem]

/-- Claim C5 (amended): the reset trigger is monotonically
non-decreasing under every event, a trigger value of `0` never fires the
associated effect action, and each align press increments the align
counter — a change that does fire the one-shot action, so repeated
identical presses re-fire it — but reset writes the align counter back
to `0`, so the align trigger is not monotone. -/
theorem C5_trigger_counter_semantics :
    ∀ (s : SystemState) (e : UiEvent) (n : ℕ),
      s.resetTrigger ≤ (step s e).resetTrigger
      ∧ triggerFires n 0 = false
      ∧ (step s .pressAlign).alignTrigger = s.alignTrigger + 1
      ∧ (step s .pressAlign).animActive = true
      ∧ (step s .pressReset).alignTrigger = 0 := by
  intro s e n
  refine ⟨?_, ?_, ?_, ?_, ?_⟩
  · cases e <;> simp [step, applyEffects, triggerFires, resetEffect] <;> split <;> simp
  · simp [triggerFires]
  · simp [step, applyEffects, triggerFires, resetEffect]
  · simp [step, applyEffects, triggerFires, resetEffect]
  · simp [step, applyEffects, triggerFires, resetEffect]

/-- Claim C7 (counterexample): while the frozen flag is `true`, a
secondary-button press still transitions the pointer machine from Idle
to Dragging, captures the pointer and sets the `grabbing` cursor —
`onPointerDown` never reads `isFrozen`. -/
theorem C7_frozen_drag_start :
    (onPointerDown none true 2 10 20 idlePointer).isDraggingRotate = true
    ∧ (onPointerDown none true 2 10 20 idlePointer).cursor = Cursor.grabbing
    ∧ (onPointerDown none true 2 10 20 idlePointer).captured = true
    ∧ idlePointer.isDraggingRotate = false := by
  refine ⟨?_, ?_, ?_, rfl⟩ <;> simp [onPointerDown]

/-- Claim C7 (amended): the pointer machine enters Dragging exactly on a
primary-button-down in knife mode or a secondary-button-down in any
mode, capturing the pointer, recording the position and setting the
`grabbing` cursor — independently of the frozen flag, which the down
handler does not consult; freezing gates only the pointer-move handler,
which leaves the orientation and last position unchanged while frozen. -/
theorem C7_pointer_down_semantics :
    ∀ (mode : Option InteractionMode) (fz fz' : Bool) (b : ℕ) (cx cy : ℝ)
      (st : PointerSt),
      onPointerDown mode fz b cx cy st = onPointerDown mode fz' b cx cy st
      ∧ ((b = 2 ∨ (mode = some .knife ∧ b = 0)) →
          onPointerDown mode fz b cx cy st
            = ⟨true, some (cx, cy), .grabbing, true⟩)
      ∧ (¬(b = 2 ∨ (mode = some .knife ∧ b = 0)) →
          onPointerDown mode fz b cx cy st = st)
      ∧ (∀ (lm : Option (ℝ × ℝ)) (eul : Vec3),
          onPointerMoveUpd true cx cy true lm eul = (lm, eul)) := by
  intro mode fz fz' b cx cy st
  refine ⟨rfl, ?_, ?_, ?_⟩
  · intro h
    simp only [onPointerDown, if_pos h]
  · intro h
    simp only [onPointerDown, if_neg h]
  · intro lm eul
    simp [onPointerMoveUpd]

/-- Claim C7 (amended) witness at a concrete secondary-button press. -/
theorem C7_pointer_down_semantics_witness :
    onPointerDown none false 2 1 2 idlePointer
      = ⟨true, some (1, 2), Cursor.grabbing, true⟩ :=
  (C7_pointer_down_semantics none false true 2 1 2 idlePointer).2.1 (Or.inl rfl)

/-!  ### The position invariant (claim C9) -/

/-- `clampLength(0, m)` yields a vector of length at most `m`. -/
lemma vnorm_clampLength_le (v : Vec3) (m : ℝ) (hm : 0 ≤ m) :
    vnorm (clampLength v 0 m) ≤ m := by
  have hlen : vnorm (clampLength v 0 m)
      = |max 0 (min m (vnorm v)) / (if vnorm v = 0 then 1 else vnorm v)|
          * vnorm v := by
    unfold clampLength
    exact vnorm_smul _ _
  by_cases h : vnorm v = 0
  · rw [hlen, h, mul_zero]
    exact hm
  · have hpos : 0 < vnorm v := lt_of_le_of_ne (vnorm_nonneg v) (Ne.symm h)
    have hscal : 0 ≤ max 0 (min m (vnorm v)) / vnorm v :=
      div_nonneg (le_max_left 0 _) hpos.le
    rw [hlen, if_neg h, abs_of_nonneg hscal, div_mul_cancel₀ _ h]
    exact max_le hm (min_le_left m (vnorm v))

/-- A lerp between two points of the radius-`r` ball stays in the ball. -/
lemma vnorm_lerpV_le (a b : Vec3) (al r : ℝ) (ha : vnorm a ≤ r)
    (hb : vnorm b ≤ r) (h0 : 0 ≤ al) (h1 : al ≤ 1) :
    vnorm (lerpV a b al) ≤ r := by
  have key : lerpV a b al = ((1 - al) • a) + (al • b) := by
    unfold lerpV
    ext <;> simp <;> ring
  have h1a : 0 ≤ 1 - al := by linarith
  calc vnorm (lerpV a b al)
      ≤ vnorm ((1 - al) • a) + vnorm (al • b) := by
        rw [key]; exact vnorm_add_le _ _
    _ = (1 - al) * vnorm a + al * vnorm b := by
        rw [vnorm_smul, vnorm_smul, abs_of_nonneg h1a, abs_of_nonneg h0]
    _ ≤ (1 - al) * r + al * r := by
        have t1 : (1 - al) * vnorm a ≤ (1 - al) * r :=
          mul_le_mul_of_nonneg_left ha h1a
        have t2 : al * vnorm b ≤ al * r :=
          mul_le_mul_of_nonneg_left hb h0
        linarith
    _ = r := by ring

/-- Every single step keeps the plane position inside the radius-2.5
ball: the only writers are the reset effect (origin), and the follow
update, which lerps between the old position and the clamped target. -/
lemma step_planePos_in_ball (s : SystemState) (e : UiEvent)
    (h : vnorm s.planePos ≤ 2.5) : vnorm (step s e).planePos ≤ 2.5 := by
  have hz : vnorm vzero ≤ (2.5 : ℝ) := by
    rw [vnorm_vzero]; norm_num
  cases e with
  | pressReset =>
      simpa [step, applyEffects, triggerFires, resetEffect] using hz
  | pressAlign =>
      simpa [step, applyEffects, triggerFires, resetEffect] using h
  | shapeChange t =>
      simpa [step, applyEffects, triggerFires, resetEffect] using hz
  | toggleFreeze => exact h
  | canvasClick d t => exact h
  | canvasDoubleClick => exact h
  | pointerDown b cx cy => exact h
  | pointerMove cx cy => exact h
  | pointerUp => exact h
  | keyDown k =>
      by_cases hf : s.isFrozen <;> simp [step, hf] <;> exact h
  | frame r camDir =>
      by_cases hc : (!s.isFrozen ∧ !s.pointer.isDraggingRotate : Prop)
      · simp only [step, if_pos hc]
        unfold followUpdate
        exact vnorm_lerpV_le _ _ _ _ h
          (vnorm_clampLength_le _ _ (by norm_num)) (by norm_num) (by norm_num)
      · simp only [step, if_neg hc]
        exact h

/-- Claim C9: over any session, every reachable state keeps the plane
position's Euclidean norm at most `2.5` — the pointer-follow target is
clamped to length `2.5` before the lerp, the position starts at and is
reset to the origin, and no other operation writes it. -/
theorem C9_position_stays_in_ball :
    ∀ s : SystemState, Reachable s → vnorm s.planePos ≤ 2.5 := by
  intro s h
  induction h with
  | init =>
      show vnorm vzero ≤ (2.5 : ℝ)
      rw [vnorm_vzero]; norm_num
  | next s' e _ ih => exact step_planePos_in_ball s' e ih

/-- Claim C9 witness: the initial state is reachable and satisfies the
bound. -/
theorem C9_position_stays_in_ball_witness :
    vnorm initSystem.planePos ≤ 2.5 :=
  C9_position_stays_in_ball initSystem Reachable.init
